import Mathlib

/-!
Shallow embedding of `src/stores/nvidia.py` (class `NvidiaBuyer`).

Modelling conventions:
* An HTTP exchange is either a delivered response (`HttpOutcome.ok`) or a
  transport-level failure (`HttpOutcome.raise`, i.e. a raised
  `requests.exceptions.RequestException`).
* A delivered response carries its status code, its raw body text, and its
  body parsed as a JSON object with string-valued fields (an association
  list); the claims only concern responses whose bodies parse this way.
* The mutable attributes of a `NvidiaBuyer` instance are threaded as an
  explicit `BuyerState`.  Calls to the external notification sink are
  observable effects and are modelled as counters in the state, as is the
  number of inventory GET requests issued.
* Python's `str.lower` is modelled by a character-wise `Char.toLower`
  map (`pyLower`; locale codes are ASCII).
-/

namespace Nvidia

/-- Python membership on character lists: `charsHasPre n h` holds when `n`
is an initial segment of `h`. -/
def charsHasPre : List Char → List Char → Bool
  | [], _ => true
  | _ :: _, [] => false
  | c :: cs, d :: ds => c == d && charsHasPre cs ds

/-- `charsHasSub n h` holds when `n` occurs contiguously inside `h`. -/
def charsHasSub (needle : List Char) : List Char → Bool
  | [] => needle.isEmpty
  | d :: ds => charsHasPre needle (d :: ds) || charsHasSub needle ds

/-- Python's substring test `needle in hay`. -/
def strContains (hay needle : String) : Bool :=
  charsHasSub needle.toList hay.toList

/-- `API_STATUS` enum (lines 61-63). -/
inductive API_STATUS where
  | ONLINE
  | OFFLINE
deriving DecidableEq, Repr

/-- `CURRENCY_LOCALE_MAP` (lines 30-43). -/
def CURRENCY_LOCALE_MAP : List (String × String) :=
  [("en_us", "USD"), ("en_gb", "GBP"), ("de_de", "EUR"), ("fr_fr", "EUR"),
   ("it_it", "EUR"), ("es_es", "EUR"), ("nl_nl", "EUR"), ("sv_se", "SEK"),
   ("de_at", "EUR"), ("fr_be", "EUR"), ("da_dk", "DKK"), ("cs_cz", "CZK")]

/-- `CURRENCY_LOCALE_MAP.get(locale, "USD")` as used at line 186. -/
def currencyFor (locale : String) : String :=
  (CURRENCY_LOCALE_MAP.lookup locale).getD "USD"

/-- `CART_SUCCESS_CODES = {201, requests.codes.ok}` (line 49).  Declared in
the source but never consulted by `add_to_cart`. -/
def CART_SUCCESS_CODES : List Nat := [201, 200]

/-- Python's `str.lower` on the ASCII locale codes: lowercase the string
character by character (the same map `String.toLower` performs, written
over the character list so it evaluates by reduction). -/
def pyLower (s : String) : String := String.mk (s.data.map Char.toLower)

/-- `self.cli_locale = locale.lower()` (line 69). -/
def cliLocale (locale : String) : String := pyLower locale

/-- `NvidiaBuyer.map_locales` (lines 97-106): operates on the already
lowercased `self.cli_locale`. -/
def map_locales (cli_locale : String) : String :=
  if cli_locale = "de_at" then "de_de"
  else if cli_locale = "fr_be" then "fr_fr"
  else if cli_locale = "da_dk" then "en_gb"
  else if cli_locale = "cs_cz" then "en_gb"
  else cli_locale

/-- `self.locale = self.map_locales()` (line 70), composed with the
lowercasing of the constructor argument at line 69. -/
def localeResolve (locale : String) : String :=
  map_locales (cliLocale locale)

/-- A JSON value found in the product-ids dataset for a (locale, gpu) key:
the code inspects it with `isinstance(…, list)` and `isinstance(…, str)`. -/
inductive JsonVal where
  | jstr (s : String)
  | jlist (l : List String)
  | jother
deriving DecidableEq, Repr

/-- The static dataset `PRODUCT_IDS` (line 58) loaded from
`stores/store_data/nvidia_product_ids.json`.  The data file is not part of
the sources, so the dataset is a parameter: a map from locale key
and gpu key to the stored JSON value (`none` models a missing key, on which
Python raises `KeyError`). -/
def Catalog : Type := String → String → Option JsonVal

/-- `NvidiaBuyer.get_product_ids` (lines 108-112): looks up
`PRODUCT_IDS[self.cli_locale][self.gpu]`; a list is stored as is, a string
is wrapped in a one-element list, any other shape leaves `self.product_ids`
as the initial empty collection; a missing key raises (`none` here). -/
def get_product_ids (cat : Catalog) (cli_locale gpu : String) :
    Option (List String) :=
  match cat cli_locale gpu with
  | Option.none => Option.none
  | some (JsonVal.jlist l) => some l
  | some (JsonVal.jstr s) => some [s]
  | some JsonVal.jother => some []

/-- A response delivered by `requests`: status code, raw body text, and the
body parsed as a JSON object with string fields. -/
structure HttpResponse where
  status_code : Nat
  text : String
  json : List (String × String)
deriving DecidableEq, Repr

/-- Outcome of one HTTP call: a delivered response or a raised
`requests.exceptions.RequestException`. -/
inductive HttpOutcome where
  | ok (r : HttpResponse)
  | raise
deriving DecidableEq, Repr

/-- The mutable attributes of a `NvidiaBuyer` set up in `__init__`
(lines 73-79), together with observation counters for the calls the buyer
makes to its external collaborators. -/
structure BuyerState where
  /-- `self.api_status`, read by `updateApiStatus`'s flip check. -/
  api_status : API_STATUS
  /-- `self.api_online`, the attribute `updateApiStatus` assigns; it does
  not exist before the first call. -/
  api_online : Option API_STATUS
  /-- `self.attempt`. -/
  attempt : Nat
  /-- `self.enabled`. -/
  enabled : Bool
  /-- number of "API back online" notifications sent (line 137). -/
  backOnlineNotifs : Nat
  /-- number of success notifications sent (line 163). -/
  successNotifs : Nat
  /-- number of cart-failure notifications sent (line 168). -/
  failureNotifs : Nat
  /-- number of inventory GET requests issued by `is_in_stock`. -/
  stockChecks : Nat
deriving DecidableEq, Repr

/-- The state right after `__init__` (lines 73-79): `enabled = True`,
`attempt = 0`, `api_status = API_STATUS.ONLINE`, no `api_online` attribute
yet, no external calls made. -/
def initState : BuyerState :=
  { api_status := API_STATUS.ONLINE
    api_online := Option.none
    attempt := 0
    enabled := true
    backOnlineNotifs := 0
    successNotifs := 0
    failureNotifs := 0
    stockChecks := 0 }

/-- `NvidiaBuyer.updateApiStatus` (lines 134-140): when the stored
`self.api_status` is OFFLINE and the argument is ONLINE, send the
back-online notification; then assign the argument to `self.api_online`
(note: not to `self.api_status`). -/
def updateApiStatus (s : BuyerState) (st : API_STATUS) : BuyerState :=
  let s1 :=
    if s.api_status = API_STATUS.OFFLINE ∧ st = API_STATUS.ONLINE then
      { s with backOnlineNotifs := s.backOnlineNotifs + 1 }
    else s
  { s1 with api_online := some st }

/-- `NvidiaBuyer.is_in_stock` (lines 180-202): issue one inventory GET
(counted in `stockChecks`); on a delivered response the result is the
substring test `"PRODUCT_INVENTORY_IN_STOCK" in response.text` (the status
code is only logged); on a raised request exception the result is `False`.
No buyer attribute is modified. -/
def is_in_stock (s : BuyerState) (o : HttpOutcome) : BuyerState × Bool :=
  let s1 := { s with stockChecks := s.stockChecks + 1 }
  match o with
  | HttpOutcome.ok r => (s1, strContains r.text "PRODUCT_INVENTORY_IN_STOCK")
  | HttpOutcome.raise => (s1, false)

/-- The value a Python call of `get_session_token` can produce: a
`(success, token)` tuple, the implicit `None` of falling off the end of the
function, or the bare `False` of line 272. -/
inductive TokenRet where
  | tup (success : Bool) (token : String)
  | pyNone
  | pyFalse
deriving DecidableEq, Repr

/-- `NvidiaBuyer.get_session_token` (lines 240-272): on HTTP 200 the parsed
body is consulted for `"session_token"` — absent gives `(False, "")`,
present gives `(True, token)`; on any other status the code only logs and
the function falls through, returning Python `None`; on a raised request
exception the function returns the bare boolean `False`. -/
def get_session_token (o : HttpOutcome) : TokenRet :=
  match o with
  | HttpOutcome.ok r =>
    if r.status_code = 200 then
      match r.json.lookup "session_token" with
      | Option.none => TokenRet.tup false ""
      | some tok => TokenRet.tup true tok
    else TokenRet.pyNone
  | HttpOutcome.raise => TokenRet.pyFalse

/-- The value a Python call of `add_to_cart` can produce: a boolean, or an
uncaught exception escaping the function (`TypeError` from unpacking a
non-tuple returned by `get_session_token`, or `KeyError` from
`response_json["message"]`). -/
inductive CartRet where
  | ret (b : Bool)
  | exn
deriving DecidableEq, Repr

/-- `NvidiaBuyer.add_to_cart` (lines 204-238): unpack
`success, token = self.get_session_token()` (a non-tuple raises
`TypeError`, uncaught); on token failure return `False` without issuing the
cart POST; otherwise issue the POST — on HTTP 200 the result is whether
`"successfully"` occurs in `response_json["message"]` (a missing
`"message"` key raises `KeyError`, uncaught); any other status falls
through to `return False`; a raised request exception on the POST is caught
and returns `False`. -/
def add_to_cart (tok : HttpOutcome) (post : HttpOutcome) : CartRet :=
  match get_session_token tok with
  | TokenRet.tup true _ =>
    (match post with
     | HttpOutcome.ok r =>
       if r.status_code = 200 then
         match r.json.lookup "message" with
         | some m => CartRet.ret (strContains m "successfully")
         | Option.none => CartRet.exn
       else CartRet.ret false
     | HttpOutcome.raise => CartRet.ret false)
  | TokenRet.tup false _ => CartRet.ret false
  | TokenRet.pyNone => CartRet.exn
  | TokenRet.pyFalse => CartRet.exn

/-- Outcome of running the embedded `buy` worker on a finite script of
transport outcomes. -/
inductive BuyOutcome where
  | done
  /-- the finite script of transport outcomes was exhausted while the
  worker was still running (the real loop is unbounded). -/
  | scriptEnd
  /-- an exception other than a request exception escaped `buy`
  (the `TypeError` / `KeyError` paths of `add_to_cart`). -/
  | crashed
deriving DecidableEq, Repr

/-- The `while not self.is_in_stock(product_id):` loop of `buy`
(lines 146-153): each iteration consumes one transport outcome for the
inventory GET; while the result is not in stock the worker calls
`updateApiStatus(API_STATUS.ONLINE)` and increments `self.attempt`.
Returns the state, the unconsumed script, and whether stock was found
before the script ran out. -/
def checkLoop (s : BuyerState) : List HttpOutcome → BuyerState × List HttpOutcome × Bool
  | [] => (s, [], false)
  | o :: rest =>
    match is_in_stock s o with
    | (s1, true) => (s1, rest, true)
    | (s1, false) =>
      let s2 := updateApiStatus s1 API_STATUS.ONLINE
      let s3 := { s2 with attempt := s2.attempt + 1 }
      checkLoop s3 rest

/-- `NvidiaBuyer.buy` (lines 142-178) on a finite script: `polls` feeds the
inventory GETs and `carts` feeds each `add_to_cart` call (its session-token
GET and its cart POST).  After the stock loop the worker calls
`updateApiStatus(API_STATUS.ONLINE)` (line 155); if `enabled`, it runs
`add_to_cart` — on success it clears `enabled`, opens the browser and sends
the success notification; on failure it sends the failure notification and
recursively calls `buy` on the same product id.  The recursion is measured
by `fuel`; each recursive call consumes one cart attempt, so
`carts.length + 1` fuel is always enough. -/
def buyAux : Nat → BuyerState → List HttpOutcome → List (HttpOutcome × HttpOutcome) →
    BuyerState × BuyOutcome
  | 0, s, _, _ => (s, BuyOutcome.scriptEnd)
  | fuel + 1, s, polls, carts =>
    match checkLoop s polls with
    | (s1, polls1, found) =>
      if found then
        let s2 := updateApiStatus s1 API_STATUS.ONLINE
        if s2.enabled then
          match carts with
          | [] => (s2, BuyOutcome.scriptEnd)
          | (tok, post) :: carts1 =>
            match add_to_cart tok post with
            | CartRet.exn => (s2, BuyOutcome.crashed)
            | CartRet.ret true =>
              ({ s2 with enabled := false, successNotifs := s2.successNotifs + 1 },
               BuyOutcome.done)
            | CartRet.ret false =>
              buyAux fuel { s2 with failureNotifs := s2.failureNotifs + 1 } polls1 carts1
        else (s2, BuyOutcome.done)
      else (s1, BuyOutcome.scriptEnd)

/-- `buy` with enough fuel for the whole cart script. -/
def buy (s : BuyerState) (polls : List HttpOutcome)
    (carts : List (HttpOutcome × HttpOutcome)) : BuyerState × BuyOutcome :=
  buyAux (carts.length + 1) s polls carts

/-! Helper lemmas about the state transformers. -/

theorem updateApiStatus_attempt (s : BuyerState) (st : API_STATUS) :
    (updateApiStatus s st).attempt = s.attempt := by
  unfold updateApiStatus
  split <;> rfl

theorem updateApiStatus_enabled (s : BuyerState) (st : API_STATUS) :
    (updateApiStatus s st).enabled = s.enabled := by
  unfold updateApiStatus
  split <;> rfl

theorem updateApiStatus_api_status (s : BuyerState) (st : API_STATUS) :
    (updateApiStatus s st).api_status = s.api_status := by
  unfold updateApiStatus
  split <;> rfl

theorem is_in_stock_fst (s : BuyerState) (o : HttpOutcome) :
    (is_in_stock s o).1 = { s with stockChecks := s.stockChecks + 1 } := by
  cases o <;> rfl

theorem checkLoop_attempt_mono (polls : List HttpOutcome) :
    ∀ s : BuyerState, s.attempt ≤ (checkLoop s polls).1.attempt := by
  induction polls with
  | nil => intro s; exact Nat.le_refl _
  | cons o rest ih =>
    intro s
    unfold checkLoop
    cases h : is_in_stock s o with
    | mk s1 b =>
      have hs1 : s1.attempt = s.attempt := by
        have h2 : s1 = { s with stockChecks := s.stockChecks + 1 } := by
          have h3 := is_in_stock_fst s o
          rw [h] at h3
          exact h3
        rw [h2]
      cases b with
      | true => exact Nat.le_of_eq hs1.symm
      | false =>
        have step :
            s.attempt ≤ (updateApiStatus s1 API_STATUS.ONLINE).attempt + 1 := by
          rw [updateApiStatus_attempt, hs1]
          exact Nat.le_succ _
        exact Nat.le_trans step
          (ih { updateApiStatus s1 API_STATUS.ONLINE with
                  attempt := (updateApiStatus s1 API_STATUS.ONLINE).attempt + 1 })

theorem buyAux_attempt_mono (fuel : Nat) :
    ∀ (s : BuyerState) (polls : List HttpOutcome)
      (carts : List (HttpOutcome × HttpOutcome)),
      s.attempt ≤ (buyAux fuel s polls carts).1.attempt := by
  induction fuel with
  | zero => intro s polls carts; exact Nat.le_refl _
  | succ fuel ih =>
    intro s polls carts
    unfold buyAux
    cases h : checkLoop s polls with
    | mk s1 p =>
      cases p with
      | mk polls1 found =>
        have hs1 : s.attempt ≤ s1.attempt := by
          have := checkLoop_attempt_mono polls s
          rw [h] at this
          exact this
        cases found with
        | false => simpa using hs1
        | true =>
          simp only [if_true]
          have hs2 : s.attempt ≤ (updateApiStatus s1 API_STATUS.ONLINE).attempt := by
            rw [updateApiStatus_attempt]; exact hs1
          by_cases he : (updateApiStatus s1 API_STATUS.ONLINE).enabled
          · simp only [he, if_true]
            cases carts with
            | nil => simpa using hs2
            | cons c carts1 =>
              cases c with
              | mk tok post =>
                cases hc : add_to_cart tok post with
                | exn => simp only [hc]; exact hs2
                | ret b =>
                  cases b with
                  | true => simp only [hc]; exact hs2
                  | false =>
                    simp only [hc]
                    exact Nat.le_trans hs2
                      (ih { updateApiStatus s1 API_STATUS.ONLINE with
                              enabled := true,
                              failureNotifs :=
                                (updateApiStatus s1 API_STATUS.ONLINE).failureNotifs + 1 }
                          polls1 carts1)
          · simp only [he, if_false]
            simpa using hs2

/-! Concrete transport fixtures used by several of the theorems below. -/

/-- An inventory response whose body carries the in-stock marker. -/
def okStock : HttpOutcome :=
  HttpOutcome.ok { status_code := 200, text := "PRODUCT_INVENTORY_IN_STOCK", json := [] }

/-- A session-token response carrying a token. -/
def tokOK : HttpOutcome :=
  HttpOutcome.ok { status_code := 200, text := "", json := [("session_token", "tok123")] }

/-- An HTTP 200 session-token response whose JSON body lacks the
`session_token` field. -/
def tokNoField : HttpOutcome :=
  HttpOutcome.ok { status_code := 200, text := "", json := [("status", "error")] }

/-- An HTTP 500 session-token response. -/
def tok500 : HttpOutcome :=
  HttpOutcome.ok { status_code := 500, text := "", json := [] }

/-- A successful add-to-cart response (HTTP 200). -/
def cartOK : HttpOutcome :=
  HttpOutcome.ok { status_code := 200, text := "", json := [("message", "Added successfully")] }

/-- A successful add-to-cart response delivered with status 201. -/
def cart201 : HttpOutcome :=
  HttpOutcome.ok { status_code := 201, text := "", json := [("message", "Added successfully")] }

/-- A catalog holding distinct product-id lists under the "de_at" and
"de_de" locale keys for the "3080" family. -/
def testCatalog : Catalog := fun loc gpu =>
  if loc = "de_at" ∧ gpu = "3080" then some (JsonVal.jlist ["DE-AT-ID"])
  else if loc = "de_de" ∧ gpu = "3080" then some (JsonVal.jlist ["DE-DE-ID"])
  else Option.none

/-! The claims. -/

/-- C1: `get_session_token` returns the pair `(True, token)` exactly on
HTTP 200 with the token field present, and `(False, "")` when the field is
absent at HTTP 200; but a non-200 status makes the function fall through
and return Python `None`, and a transport failure returns the bare boolean
`False` — neither is the pair `(False, "")` the claim describes, and both
make the tuple unpacking in `add_to_cart` raise an uncaught `TypeError`. -/
theorem claim_C1 :
    get_session_token tokOK = TokenRet.tup true "tok123" ∧
    get_session_token tokNoField = TokenRet.tup false "" ∧
    get_session_token tok500 = TokenRet.pyNone ∧
    get_session_token HttpOutcome.raise = TokenRet.pyFalse ∧
    TokenRet.pyNone ≠ TokenRet.tup false "" ∧
    TokenRet.pyFalse ≠ TokenRet.tup false "" ∧
    add_to_cart tok500 cartOK = CartRet.exn ∧
    add_to_cart HttpOutcome.raise cartOK = CartRet.exn := by
  decide

/-- C2: `updateApiStatus` never changes the stored `api_status` that its
own flip check reads — it assigns the argument to the separate `api_online`
attribute.  Starting from the constructed state, calling it with OFFLINE
leaves `api_status` at ONLINE, so the subsequent ONLINE call emits no
"API back online" notification. -/
theorem claim_C2 :
    (∀ (s : BuyerState) (st : API_STATUS),
        (updateApiStatus s st).api_status = s.api_status) ∧
    (updateApiStatus initState API_STATUS.OFFLINE).api_status = API_STATUS.ONLINE ∧
    (updateApiStatus initState API_STATUS.OFFLINE).api_online = some API_STATUS.OFFLINE ∧
    (updateApiStatus (updateApiStatus initState API_STATUS.OFFLINE)
        API_STATUS.ONLINE).backOnlineNotifs = 0 :=
  ⟨updateApiStatus_api_status, by decide, by decide, by decide⟩

/-- C3 counterexample: a worker whose first inventory request raises a
transport exception and whose second finds stock finishes with
`attempt = 1` (the counter was incremented on the failed poll and never
reset; under the claim a restart would reset it and it would end at 0),
and the API status recorded right after the failing poll is ONLINE, not
OFFLINE. -/
theorem claim_C3_cex :
    (buy initState [HttpOutcome.raise, okStock] [(tokOK, cartOK)]).2 = BuyOutcome.done ∧
    (buy initState [HttpOutcome.raise, okStock] [(tokOK, cartOK)]).1.attempt = 1 ∧
    (buy initState [HttpOutcome.raise, okStock]
        [(tokOK, cartOK)]).1.api_status = API_STATUS.ONLINE ∧
    (buy initState [HttpOutcome.raise, okStock]
        [(tokOK, cartOK)]).1.api_online = some API_STATUS.ONLINE ∧
    (checkLoop initState [HttpOutcome.raise]).1.api_online = some API_STATUS.ONLINE ∧
    (checkLoop initState [HttpOutcome.raise]).1.attempt = 1 := by
  decide

/-- C3 (amended): a transport exception during a stock poll is swallowed
inside `is_in_stock` and handled exactly like a not-in-stock response (for
instance an HTTP 503 with empty body): the worker stays in its CHECKING
loop, records the API as ONLINE and increments the attempt counter;
`api_status` is never modified, and the attempt counter never resets — it
is monotone across the whole buy cycle, including cart-failure restarts. -/
theorem claim_C3 :
    (∀ (s : BuyerState) (rest : List HttpOutcome),
        checkLoop s (HttpOutcome.raise :: rest) =
          checkLoop s
            (HttpOutcome.ok { status_code := 503, text := "", json := [] } :: rest)) ∧
    (∀ (s : BuyerState) (o : HttpOutcome),
        (is_in_stock s o).1.api_status = s.api_status) ∧
    (∀ (fuel : Nat) (s : BuyerState) (polls : List HttpOutcome)
        (carts : List (HttpOutcome × HttpOutcome)),
        s.attempt ≤ (buyAux fuel s polls carts).1.attempt) :=
  ⟨fun _ _ => rfl, fun s o => by cases o <;> rfl, buyAux_attempt_mono⟩

/-- C4 counterexample: a stock poll whose request raises returns false, but
the API status does not transition to OFFLINE in that call — `api_status`
is still ONLINE and the `api_online` attribute was not assigned at all. -/
theorem claim_C4_cex :
    (is_in_stock initState HttpOutcome.raise).2 = false ∧
    (is_in_stock initState HttpOutcome.raise).1.api_status = API_STATUS.ONLINE ∧
    (is_in_stock initState HttpOutcome.raise).1.api_online = Option.none ∧
    API_STATUS.ONLINE ≠ API_STATUS.OFFLINE := by
  decide

/-- C4 (amended): on a transport failure the stock poll returns
not-in-stock without propagating the error, and leaves every buyer
attribute unchanged — in particular no API-status transition happens in
that poll call (only the request counter observation advances). -/
theorem claim_C4 (s : BuyerState) :
    is_in_stock s HttpOutcome.raise =
      ({ s with stockChecks := s.stockChecks + 1 }, false) :=
  rfl

/-- C5 counterexample: on a catalog holding different id lists under
"de_at" and "de_de", a buyer constructed with CLI locale "de_at" resolves
its product ids from the "de_at" entry, not the "de_de" entry the claim
names. -/
theorem claim_C5_cex :
    testCatalog "de_de" "3080" = some (JsonVal.jlist ["DE-DE-ID"]) ∧
    get_product_ids testCatalog (cliLocale "de_at") "3080" = some ["DE-AT-ID"] ∧
    (some ["DE-AT-ID"] : Option (List String)) ≠ some ["DE-DE-ID"] := by
  decide

/-- C5 (amended): for CLI locale "de_at" the locale resolves to canonical
"de_de" with currency "EUR", but the catalog lookup is performed under the
original CLI locale key "de_at" (the code indexes `PRODUCT_IDS` by
`self.cli_locale`, not by the remapped `self.locale`); a list entry passes
through unchanged and a single-string entry is normalized to a one-element
list. -/
theorem claim_C5 :
    localeResolve "de_at" = "de_de" ∧
    currencyFor (localeResolve "de_at") = "EUR" ∧
    (∀ (cat : Catalog) (l : List String),
        cat "de_at" "3080" = some (JsonVal.jlist l) →
        get_product_ids cat (cliLocale "de_at") "3080" = some l) ∧
    (∀ (cat : Catalog) (s0 : String),
        cat "de_at" "3080" = some (JsonVal.jstr s0) →
        get_product_ids cat (cliLocale "de_at") "3080" = some [s0]) := by
  refine ⟨by decide, by decide, ?_, ?_⟩
  · intro cat l h
    show get_product_ids cat "de_at" "3080" = some l
    unfold get_product_ids
    rw [h]
  · intro cat s0 h
    show get_product_ids cat "de_at" "3080" = some [s0]
    unfold get_product_ids
    rw [h]

/-- C5 witness: the amended lookup equations instantiated on the concrete
test catalog. -/
theorem claim_C5_witness :
    get_product_ids testCatalog (cliLocale "de_at") "3080" = some ["DE-AT-ID"] :=
  claim_C5.2.2.1 testCatalog ["DE-AT-ID"] (by decide)

/-- C6 counterexample: with stock available and the first cart attempt
failing (token field absent) before a second succeeds, the worker performs
two stock checks — the retry after the failure notification re-enters
CHECKING and polls stock again, where the claim allows only the single
initial check. -/
theorem claim_C6_cex :
    (buy initState [okStock, okStock]
        [(tokNoField, cartOK), (tokOK, cartOK)]).1.failureNotifs = 1 ∧
    (buy initState [okStock, okStock]
        [(tokNoField, cartOK), (tokOK, cartOK)]).1.successNotifs = 1 ∧
    (buy initState [okStock, okStock]
        [(tokNoField, cartOK), (tokOK, cartOK)]).1.stockChecks = 2 ∧
    (2 : Nat) ≠ 1 := by
  decide

/-- C6 (amended): for every failed `add_to_cart` attempt on an in-stock
product, the worker emits one failure notification and then recursively
restarts the entire buy cycle for the same product id — the continuation is
a fresh `buy` run that begins with the CHECKING loop, so another stock
check is issued before the cart is re-attempted. -/
theorem claim_C6 (fuel : Nat) (s : BuyerState) (polls : List HttpOutcome)
    (carts : List (HttpOutcome × HttpOutcome)) (tok post : HttpOutcome)
    (r : HttpResponse) (henabled : s.enabled = true)
    (hstock : strContains r.text "PRODUCT_INVENTORY_IN_STOCK" = true)
    (hfail : add_to_cart tok post = CartRet.ret false) :
    buyAux (fuel + 1) s (HttpOutcome.ok r :: polls) ((tok, post) :: carts) =
      buyAux fuel
        { updateApiStatus { s with stockChecks := s.stockChecks + 1 }
            API_STATUS.ONLINE with
            failureNotifs :=
              (updateApiStatus { s with stockChecks := s.stockChecks + 1 }
                  API_STATUS.ONLINE).failureNotifs + 1 }
        polls carts := by
  have hcheck : checkLoop s (HttpOutcome.ok r :: polls) =
      ({ s with stockChecks := s.stockChecks + 1 }, polls, true) := by
    unfold checkLoop is_in_stock
    simp [hstock]
  have hen : (updateApiStatus { s with stockChecks := s.stockChecks + 1 }
      API_STATUS.ONLINE).enabled = true := by
    rw [updateApiStatus_enabled]
    exact henabled
  conv_lhs => rw [buyAux]
  rw [hcheck]
  simp [hen, hfail]

/-- C6 witness: the amended retry equation instantiated on a concrete
in-stock poll followed by a token-failure cart attempt. -/
theorem claim_C6_witness :
    buyAux 1 initState
        [HttpOutcome.ok { status_code := 200, text := "PRODUCT_INVENTORY_IN_STOCK", json := [] }]
        [(tokNoField, cartOK)] =
      buyAux 0
        { updateApiStatus { initState with stockChecks := initState.stockChecks + 1 }
            API_STATUS.ONLINE with
            failureNotifs :=
              (updateApiStatus { initState with stockChecks := initState.stockChecks + 1 }
                  API_STATUS.ONLINE).failureNotifs + 1 }
        [] [] :=
  claim_C6 0 initState [] [] tokNoField cartOK
    { status_code := 200, text := "PRODUCT_INVENTORY_IN_STOCK", json := [] }
    (by decide) (by decide) (by decide)

/-- C7: `add_to_cart` only accepts HTTP 200 — the declared
`CART_SUCCESS_CODES = {201, 200}` is never consulted, so an HTTP 201
response whose message field contains the success substring is reported as
failure; other statuses and a transport failure on the POST also yield
false. -/
theorem claim_C7 :
    add_to_cart tokOK cart201 = CartRet.ret false ∧
    201 ∈ CART_SUCCESS_CODES ∧
    add_to_cart tokOK cartOK = CartRet.ret true ∧
    add_to_cart tokOK HttpOutcome.raise = CartRet.ret false ∧
    add_to_cart tokOK (HttpOutcome.ok { status_code := 500, text := "", json := [] }) =
      CartRet.ret false := by
  decide

/-- C8: for every delivered response, the stock poll answers in-stock
exactly when the marker substring occurs in the raw body, and the answer
is independent of the HTTP status code — a non-2xx response never raises,
so a well-formed body without the marker is not-in-stock and a non-2xx
body with the marker is in-stock. -/
theorem claim_C8 (st : BuyerState) (r : HttpResponse) :
    ((is_in_stock st (HttpOutcome.ok r)).2 = true ↔
      strContains r.text "PRODUCT_INVENTORY_IN_STOCK" = true) ∧
    (∀ c : Nat,
        is_in_stock st (HttpOutcome.ok { r with status_code := c }) =
          is_in_stock st (HttpOutcome.ok r)) :=
  ⟨Iff.rfl, fun _ => rfl⟩

/-- C9: the locale resolver maps the four remapped regional codes to their
documented targets (de_at to de_de, fr_be to fr_fr, da_dk and cs_cz to
en_gb), and every other input passes through lowercased, with no error
path. -/
theorem claim_C9 :
    localeResolve "de_at" = "de_de" ∧
    localeResolve "fr_be" = "fr_fr" ∧
    localeResolve "da_dk" = "en_gb" ∧
    localeResolve "cs_cz" = "en_gb" ∧
    (∀ lo : String,
        pyLower lo ≠ "de_at" → pyLower lo ≠ "fr_be" →
        pyLower lo ≠ "da_dk" → pyLower lo ≠ "cs_cz" →
        localeResolve lo = pyLower lo) := by
  refine ⟨by decide, by decide, by decide, by decide, ?_⟩
  intro lo h1 h2 h3 h4
  unfold localeResolve cliLocale map_locales
  simp [h1, h2, h3, h4]

/-- C9 witness: an unmapped mixed-case locale passes through lowercased. -/
theorem claim_C9_witness : localeResolve "EN_US" = "en_us" :=
  claim_C9.2.2.2.2 "EN_US" (by decide) (by decide) (by decide) (by decide)

theorem map_locales_idem (t : String) :
    map_locales (map_locales t) = map_locales t := by
  by_cases h1 : t = "de_at"
  · subst h1; decide
  · by_cases h2 : t = "fr_be"
    · subst h2; decide
    · by_cases h3 : t = "da_dk"
      · subst h3; decide
      · by_cases h4 : t = "cs_cz"
        · subst h4; decide
        · have ht : map_locales t = t := by
            unfold map_locales
            simp [h1, h2, h3, h4]
          rw [ht]
          exact ht

/-- C10: locale resolution is idempotent — applying `map_locales` to the
(already lowercased) output of the resolver returns that output
unchanged, so every value the resolver can produce is a fixed point. -/
theorem claim_C10 (lo : String) :
    map_locales (localeResolve lo) = localeResolve lo :=
  map_locales_idem (cliLocale lo)

end Nvidia
